import Mathlib

/-!
Verification development for the LinkedIn match / connection-recommendation
system.  The Python sources are shallowly embedded: each scoring routine of
`src/features/compatibility_features.py`, `src/features/red_flags_detector.py`,
`src/features/hidden_gems_detector.py`, `src/models/connection_recommender.py`
and `model-api/app.py` is translated into an executable Lean definition over
`ℚ`, `ℤ` and `String`, with Python dict access `d.get(key, default)` modelled
by `Option` fields plus explicit getter functions.
-/

namespace LinkedInMatch

/-! ## Shared helpers (`src/utils/helpers.py`) -/

/-- Python `str.lower()` (ASCII case folding, character by character). -/
def strLower (s : String) : String := ⟨s.data.map Char.toLower⟩

/-- Python `str.split()` on whitespace: the list of non-empty tokens. -/
def splitWords (s : String) : List String :=
  (s.split (fun c => c = ' ' || c = '\t' || c = '\n')).filter (fun t => t ≠ "")

/-- Python substring test `needle in hay`. -/
def strContains (hay needle : String) : Bool :=
  decide (needle.toList <:+: hay.toList)

/-- Embeds `helpers.safe_divide`: division guarded by a zero-denominator default. -/
def safeDivide (num den dflt : ℚ) : ℚ :=
  if den = 0 then dflt else num / den

/-- Embeds `helpers.calculate_similarity`: word-set Jaccard similarity of two
texts, `0` when either text is empty. -/
def calcSimilarity (t1 t2 : String) : ℚ :=
  if t1 = "" ∨ t2 = "" then 0
  else
    let w1 := (splitWords (strLower t1)).toFinset
    let w2 := (splitWords (strLower t2)).toFinset
    if (w1 ∪ w2).card = 0 then 0
    else ((w1 ∩ w2).card : ℚ) / ((w1 ∪ w2).card : ℚ)

/-! ## Profile data model

A profile is a loosely-typed mapping in the source; absent keys are modelled
as `none` and every access goes through a getter applying the default used at
the corresponding `.get` call site. -/

/-- One entry of a profile's `experience` list. -/
structure ExperienceEntry where
  duration_months : ℤ
deriving DecidableEq

/-- A profile record; `none` models a key absent from the underlying dict. -/
structure Profile where
  skills : Option (List String) := none
  needs : Option (List String) := none
  can_offer : Option (List String) := none
  connections : Option ℚ := none
  seniority_level : Option String := none
  years_experience : Option ℤ := none
  industry : Option String := none
  location : Option String := none
  remote_preference : Option String := none
  current_role : Option String := none
  current_company : Option String := none
  about : Option String := none
  experience : Option (List ExperienceEntry) := none
deriving DecidableEq

/-- A profile with every optional field absent. -/
def emptyProfile : Profile := {}

/-- Getter for `profile.get("skills", [])`. -/
def skillsOf (p : Profile) : List String := p.skills.getD []

/-- Getter for `profile.get("needs", [])`. -/
def needsOf (p : Profile) : List String := p.needs.getD []

/-- Getter for `profile.get("can_offer", [])`. -/
def canOfferOf (p : Profile) : List String := p.can_offer.getD []

/-- Getter for `profile.get("connections", 0)`. -/
def connectionsOf (p : Profile) : ℚ := p.connections.getD 0

/-- Getter for `profile.get("seniority_level", "mid")` as used by the feature
engine (both `_calculate_network_value` and `_calculate_seniority_match`). -/
def seniorityOf (p : Profile) : String := p.seniority_level.getD "mid"

/-- Getter for `profile.get("years_experience", 0)`. -/
def yearsOf (p : Profile) : ℤ := p.years_experience.getD 0

/-- Getter for `(profile.get("industry") or "").lower()`. -/
def industryOf (p : Profile) : String := strLower (p.industry.getD "")

/-- Getter for `(profile.get("location") or "").lower()`. -/
def locationOf (p : Profile) : String := strLower (p.location.getD "")

/-- Getter for `(profile.get("current_role") or "").lower()`. -/
def currentRoleOf (p : Profile) : String := strLower (p.current_role.getD "")

/-- Getter for `profile.get("about", "")`. -/
def aboutOf (p : Profile) : String := p.about.getD ""

/-- Getter for `profile.get("experience", [])`. -/
def experienceOf (p : Profile) : List ExperienceEntry := p.experience.getD []

/-! ## CompatibilityFeatureEngine (`src/features/compatibility_features.py`) -/

/-- Engine configuration: the four optional weight overrides read in
`CompatibilityFeatureEngine.__init__`. -/
structure EngineConfig where
  skill_weight : Option ℚ := none
  network_weight : Option ℚ := none
  career_weight : Option ℚ := none
  geographic_weight : Option ℚ := none

/-- The default engine configuration (an empty config dict). -/
def defaultConfig : EngineConfig := {}

/-- Weight `config.get("skill_weight", 0.40)`. -/
def skillWeight (c : EngineConfig) : ℚ := c.skill_weight.getD 0.40

/-- Weight `config.get("network_weight", 0.30)`. -/
def networkWeight (c : EngineConfig) : ℚ := c.network_weight.getD 0.30

/-- Weight `config.get("career_weight", 0.20)`. -/
def careerWeight (c : EngineConfig) : ℚ := c.career_weight.getD 0.20

/-- Weight `config.get("geographic_weight", 0.10)`. -/
def geographicWeight (c : EngineConfig) : ℚ := c.geographic_weight.getD 0.10

/-- Embeds `_calculate_skill_match`: Jaccard similarity of skill sets × 100,
`0` when either set is empty. -/
def skillMatchScore (a b : Profile) : ℚ :=
  let sa := (skillsOf a).toFinset
  let sb := (skillsOf b).toFinset
  if sa = ∅ ∨ sb = ∅ then 0
  else safeDivide (((sa ∩ sb).card : ℚ) * 100) ((sa ∪ sb).card : ℚ) 0

/-- Embeds `_calculate_skill_complementarity`: fraction of both sides' needs
met by the other side's offers, × 100. -/
def skillComplementarityScore (a b : Profile) : ℚ :=
  let na := (needsOf a).toFinset
  let ob := (canOfferOf b).toFinset
  let nb := (needsOf b).toFinset
  let oa := (canOfferOf a).toFinset
  let aNeedsMet : ℕ := if na ≠ ∅ then (na ∩ ob).card else 0
  let bNeedsMet : ℕ := if nb ≠ ∅ then (nb ∩ oa).card else 0
  safeDivide (((aNeedsMet + bNeedsMet : ℕ) : ℚ) * 100) ((na.card + nb.card : ℕ) : ℚ) 0

/-- Embeds `_calculate_industry_match`: 100 on case-insensitive equality, else
word-overlap similarity × 100, and 0 when either industry is empty/absent. -/
def industryMatch (a b : Profile) : ℚ :=
  let ia := industryOf a
  let ib := industryOf b
  if ia = "" ∨ ib = "" then 0
  else if ia = ib then 100
  else calcSimilarity ia ib * 100

/-- The seniority bonus table of `_calculate_network_value`; the dict lookup
`.get(seniority_from, 10)` defaults unknown levels to 10. -/
def seniorityBonus (s : String) : ℚ :=
  if s = "entry" then 0
  else if s = "mid" then 10
  else if s = "senior" then 20
  else if s = "executive" then 30
  else 10

/-- Embeds `_calculate_network_value`: connection score capped at 50, plus 0.3
× industry match, plus the seniority bonus, all capped at 100. -/
def networkValue (pfrom pto : Profile) : ℚ :=
  let connectionScore := min (connectionsOf pfrom / 1000 * 50) 50
  let industryBonus := industryMatch pfrom pto * 0.3
  min (connectionScore + industryBonus + seniorityBonus (seniorityOf pfrom)) 100

/-- Embeds `_calculate_career_alignment`: banded on the absolute experience
gap. -/
def careerAlignmentScore (a b : Profile) : ℚ :=
  let gap := |yearsOf a - yearsOf b|
  if 3 ≤ gap ∧ gap ≤ 7 then 90
  else if gap ≤ 2 then 80
  else if gap ≤ 15 then 60
  else 40

/-- Embeds `_calculate_experience_gap`: the raw absolute years gap. -/
def experienceGap (a b : Profile) : ℤ := |yearsOf a - yearsOf b|

/-- Embeds `_calculate_geographic_score`. -/
def geographicScore (a b : Profile) : ℚ :=
  let la := locationOf a
  let lb := locationOf b
  if la = "" ∨ lb = "" then 50
  else if la = lb then 100
  else if (splitWords ((la.split (fun c => c = ',')).getLastD "")).any
      (fun w => strContains lb w) then 75
  else if a.remote_preference = some "remote" ∨ b.remote_preference = some "remote" then 60
  else 30

/-- Index of a seniority level in `["entry", "mid", "senior", "executive"]`;
`none` models the `ValueError` of `list.index` on an unknown level. -/
def seniorityIndex (s : String) : Option ℕ :=
  if s = "entry" then some 0
  else if s = "mid" then some 1
  else if s = "senior" then some 2
  else if s = "executive" then some 3
  else none

/-- Embeds `_calculate_seniority_match`: banded on the seniority-level index
gap, 50 when either level is unknown. -/
def seniorityMatch (a b : Profile) : ℚ :=
  match seniorityIndex (seniorityOf a), seniorityIndex (seniorityOf b) with
  | some ia, some ib =>
    let gap := |(ia : ℤ) - (ib : ℤ)|
    if gap = 1 then 100
    else if gap = 0 then 85
    else if gap = 2 then 70
    else 50
  | _, _ => 50

/-- Round-half-to-even to an integer, the rounding mode of Python `round`. -/
def roundHalfEven (x : ℚ) : ℤ :=
  let n := ⌊x⌋
  let f := x - n
  if f < 1 / 2 then n
  else if 1 / 2 < f then n + 1
  else if n % 2 = 0 then n
  else n + 1

/-- Python `round(x, 2)` on an exact rational. -/
def pyRound2 (x : ℚ) : ℚ := (roundHalfEven (x * 100) : ℚ) / 100

/-- Python `round(x, 1)` on an exact rational. -/
def pyRound1 (x : ℚ) : ℚ := (roundHalfEven (x * 10) : ℚ) / 10

/-- Embeds `_calculate_overall_compatibility`: weighted sum of the averaged
skill term, the averaged network term, career alignment and geography,
rounded to 2 decimals and capped at 100. -/
def overallCompatibility (cfg : EngineConfig) (sm sc nva nvb ca geo : ℚ) : ℚ :=
  let skillScore := (sm + sc) / 2
  let networkScore := (nva + nvb) / 2
  min (pyRound2 (skillScore * skillWeight cfg + networkScore * networkWeight cfg +
    ca * careerWeight cfg + geo * geographicWeight cfg)) 100

/-- Embeds `_predict_job_opportunity` as a function of the already-computed
features. -/
def predictJobOpportunity (gap : ℤ) (industry sc nva nvb : ℚ) : ℚ :=
  let s1 : ℚ := if 3 ≤ gap then 30 else 0
  let s2 : ℚ := if 70 ≤ industry then 30 else 0
  let s3 : ℚ := (nva + nvb) / 2 * 0.3
  let s4 : ℚ := if 60 ≤ sc then 10 else 0
  min 100 (s1 + s2 + s3 + s4)

/-- Embeds `_predict_mentorship_value` as a function of the already-computed
features. -/
def predictMentorshipValue (gap : ℤ) (industry nva nvb : ℚ) : ℚ :=
  let base : ℚ :=
    if 3 ≤ gap ∧ gap ≤ 7 then 50
    else if 7 < gap ∧ gap ≤ 12 then 35
    else if 12 < gap then 20
    else 10
  let s2 : ℚ := if 70 ≤ industry then 30 else 0
  min 100 (base + s2 + (nva + nvb) / 2 * 0.2)

/-- Embeds `_predict_collaboration` as a function of the already-computed
features. -/
def predictCollaboration (gap : ℤ) (sc industry geo : ℚ) : ℚ :=
  let s1 : ℚ := if 70 ≤ sc then 40 else if 50 ≤ sc then 25 else 0
  let s2 : ℚ := if gap ≤ 3 then 30 else 0
  let s3 : ℚ := if 60 ≤ industry then 20 else 0
  let s4 : ℚ := if 70 ≤ geo then 10 else 0
  min 100 (s1 + s2 + s3 + s4)

/-- Embeds `_estimate_roi_timeframe`. -/
def estimateRoiTimeframe (compat : ℚ) : String :=
  if 80 ≤ compat then "weeks"
  else if 60 ≤ compat then "months"
  else if 40 ≤ compat then "6-12 months"
  else "long-term"

/-- The numeric feature vector produced by `calculate_features` (the
explanation string, pure text templating, is not modelled). -/
structure FeatureVector where
  skill_match_score : ℚ
  skill_complementarity_score : ℚ
  network_value_a_to_b : ℚ
  network_value_b_to_a : ℚ
  career_alignment_score : ℚ
  experience_gap : ℤ
  industry_match : ℚ
  geographic_score : ℚ
  seniority_match : ℚ
  compatibility_score : ℚ
  predicted_job_opportunity_score : ℚ
  predicted_mentorship_value : ℚ
  predicted_collaboration_potential : ℚ
  roi_timeframe : String
deriving DecidableEq

/-- Embeds `CompatibilityFeatureEngine.calculate_features`. -/
def calculateFeatures (cfg : EngineConfig) (a b : Profile) : FeatureVector :=
  let sm := skillMatchScore a b
  let sc := skillComplementarityScore a b
  let nva := networkValue a b
  let nvb := networkValue b a
  let ca := careerAlignmentScore a b
  let gap := experienceGap a b
  let im := industryMatch a b
  let geo := geographicScore a b
  let sen := seniorityMatch a b
  let compat := overallCompatibility cfg sm sc nva nvb ca geo
  { skill_match_score := sm
    skill_complementarity_score := sc
    network_value_a_to_b := nva
    network_value_b_to_a := nvb
    career_alignment_score := ca
    experience_gap := gap
    industry_match := im
    geographic_score := geo
    seniority_match := sen
    compatibility_score := compat
    predicted_job_opportunity_score := predictJobOpportunity gap im sc nva nvb
    predicted_mentorship_value := predictMentorshipValue gap im nva nvb
    predicted_collaboration_potential := predictCollaboration gap sc im geo
    roi_timeframe := estimateRoiTimeframe compat }

/-! ## RedFlagsDetector (`src/features/red_flags_detector.py`) -/

/-- The vague-title lexicon of `RedFlagsDetector.__init__`. -/
def vagueTitles : List String :=
  ["professional", "consultant", "freelancer", "entrepreneur",
   "expert", "specialist", "strategist", "advisor"]

/-- Whether a (lowercased) title contains a vague-title keyword. -/
def hasVagueTitle (title : String) : Bool :=
  vagueTitles.any (fun v => strContains title v)

/-- Ghost signal 1: fewer than 3 listed skills. -/
def ghostSignalFewSkills (p : Profile) : Bool :=
  decide ((skillsOf p).length < 3)

/-- Ghost signal 2: a vague title of at most 2 words. -/
def ghostSignalVagueTitle (p : Profile) : Bool :=
  hasVagueTitle (currentRoleOf p) && decide ((splitWords (currentRoleOf p)).length ≤ 2)

/-- Ghost signal 3: an about section shorter than 50 characters. -/
def ghostSignalShortAbout (p : Profile) : Bool :=
  decide ((aboutOf p).length < 50)

/-- Ghost signal 4: fewer than 2 experience entries. -/
def ghostSignalFewExperience (p : Profile) : Bool :=
  decide ((experienceOf p).length < 2)

/-- The ghost-signal counter of `_is_ghost_profile`. -/
def ghostSignalCount (p : Profile) : ℕ :=
  (if ghostSignalFewSkills p then 1 else 0) +
  (if ghostSignalVagueTitle p then 1 else 0) +
  (if ghostSignalShortAbout p then 1 else 0) +
  (if ghostSignalFewExperience p then 1 else 0)

/-- Embeds `RedFlagsDetector._is_ghost_profile` (the `is_ghost_profile` field
of `analyze_profile`): at least 3 of the 4 ghost signals. -/
def isGhostProfile (p : Profile) : Bool :=
  decide (3 ≤ ghostSignalCount p)

/-! ## HiddenGemsDetector skill rarity (`src/features/hidden_gems_detector.py`) -/

/-- Embeds the frequency-banded rarity formula of `_calculate_skill_rarity`. -/
def skillRarity (freq : ℚ) : ℚ :=
  if freq < 0.05 then 90 + (0.05 - freq) * 200
  else if freq < 0.15 then 70 + (0.15 - freq) * 100
  else if freq < 0.30 then 40 + (0.30 - freq) * 100
  else max 10 (40 - freq * 50)

/-- Number of occurrences of a skill across all profiles' skill lists
(the `Counter` over the concatenation built in `_calculate_skill_rarity`). -/
def corpusSkillCount (corpus : List (List String)) (s : String) : ℕ :=
  (corpus.foldr (· ++ ·) []).count s

/-- Corpus frequency of a skill: occurrence count over profile count. -/
def skillFrequency (corpus : List (List String)) (s : String) : ℚ :=
  (corpusSkillCount corpus s : ℚ) / (corpus.length : ℚ)

/-- The rarity-map entry `skill_rarity_map[s]` for an observed skill. -/
def corpusRarity (corpus : List (List String)) (s : String) : ℚ :=
  skillRarity (skillFrequency corpus s)

/-! ## Score refinement (`model-api/app.py`, `predict_compatibility`) -/

/-- The red-flag penalty multiplier applied to the model's predicted score,
banded on the target's `red_flag_score`. -/
def redFlagMultiplier (rf : ℚ) : ℚ :=
  if 75 < rf then 0.80
  else if 50 < rf then 0.90
  else if 25 < rf then 0.95
  else 1

/-- The refinement step `final_score = score * multiplier` of
`predict_compatibility`. -/
def applyRedFlagPenalty (score rf : ℚ) : ℚ :=
  score * redFlagMultiplier rf

/-- The `score` field of the API response: `round(final_score, 1)`. -/
def predictResponseScore (score rf : ℚ) : ℚ :=
  pyRound1 (applyRedFlagPenalty score rf)

/-! ## ConnectionRecommender (`src/models/connection_recommender.py`) -/

/-- One row of the compatibility-pairs dataset consumed by the recommender. -/
structure PairRecord where
  profile_a_id : String
  profile_b_id : String
  compatibility_score : ℚ
  predicted_job_opportunity_score : ℚ
  predicted_mentorship_value : ℚ
  predicted_collaboration_potential : ℚ
  roi_timeframe : String
  mutual_benefit_explanation : String
deriving DecidableEq

/-- One row of the enriched profiles dataset consumed by the recommender. -/
structure RecProfile where
  profile_id : String
  name : String
  current_role : String
  current_company : String
  seniority_level : String
  industry : String
  years_experience : ℤ
  red_flag_score : ℚ
  red_flag_reasons : String
  gem_score : ℚ
  gem_type : String
  gem_reason : String
deriving DecidableEq

/-- The recommender's state: the two dataframes plus its configuration.
`redFlagCol` / `gemCol` model whether the profiles dataframe has the
`red_flag_score` resp. gem columns (a dataframe-level property in the
source). -/
structure Recommender where
  pairs : List PairRecord
  profiles : List RecProfile
  filterRedFlags : Bool := true
  redFlagThreshold : ℚ := 50
  redFlagCol : Bool := true
  gemCol : Bool := true

/-- The `candidate_id` normalization: the other endpoint of a pair. -/
def candidateOf (uid : String) (p : PairRecord) : String :=
  if p.profile_a_id = uid then p.profile_b_id else p.profile_a_id

/-- Embeds `_calculate_ranking_score` for a single pair row. -/
def rankingScore (strategy : String) (p : PairRecord) : ℚ :=
  if strategy = "compatibility" then p.compatibility_score
  else if strategy = "roi" then
    p.compatibility_score * 0.4 +
    p.predicted_job_opportunity_score * 0.25 +
    p.predicted_mentorship_value * 0.2 +
    p.predicted_collaboration_potential * 0.15
  else if strategy = "mentorship" then
    p.predicted_mentorship_value * 0.6 + p.compatibility_score * 0.4
  else if strategy = "collaboration" then
    p.predicted_collaboration_potential * 0.6 + p.compatibility_score * 0.4
  else p.compatibility_score

/-- A pair row together with its normalized candidate id and ranking score. -/
structure RankedPair where
  pair : PairRecord
  candidate_id : String
  ranking_score : ℚ
deriving DecidableEq

/-- Stable descending insertion by ranking score (the order produced by
`nlargest(top_n, "ranking_score")`). -/
def insertByRanking (x : RankedPair) : List RankedPair → List RankedPair
  | [] => [x]
  | y :: ys =>
    if y.ranking_score < x.ranking_score then x :: y :: ys
    else y :: insertByRanking x ys

/-- Stable sort, descending by ranking score. -/
def sortByRankingDesc : List RankedPair → List RankedPair
  | [] => []
  | x :: xs => insertByRanking x (sortByRankingDesc xs)

/-- An output row of `recommend_for_user`; the candidate-summary fields are
`none` when the candidate profile is absent from the lookup. -/
structure RecommendationRow where
  candidate_id : String
  ranking_score : ℚ
  compatibility_score : ℚ
  predicted_job_opportunity_score : ℚ
  predicted_mentorship_value : ℚ
  predicted_collaboration_potential : ℚ
  roi_timeframe : String
  candidate_name : Option String
  candidate_role : Option String
  candidate_company : Option String
  candidate_seniority : Option String
  candidate_industry : Option String
deriving DecidableEq

/-- Embeds `_enrich_recommendations` for one ranked row. -/
def enrichRow (r : Recommender) (rp : RankedPair) : RecommendationRow :=
  let found := r.profiles.find? (fun pr => pr.profile_id = rp.candidate_id)
  { candidate_id := rp.candidate_id
    ranking_score := rp.ranking_score
    compatibility_score := rp.pair.compatibility_score
    predicted_job_opportunity_score := rp.pair.predicted_job_opportunity_score
    predicted_mentorship_value := rp.pair.predicted_mentorship_value
    predicted_collaboration_potential := rp.pair.predicted_collaboration_potential
    roi_timeframe := rp.pair.roi_timeframe
    candidate_name := found.map (fun pr => pr.name)
    candidate_role := found.map (fun pr => pr.current_role)
    candidate_company := found.map (fun pr => pr.current_company)
    candidate_seniority := found.map (fun pr => pr.seniority_level)
    candidate_industry := found.map (fun pr => pr.industry) }

/-- Whether a candidate id belongs to the red-flagged profile set
(`red_flag_score > red_flag_threshold`). -/
def isRedFlaggedCandidate (r : Recommender) (cid : String) : Bool :=
  r.profiles.any (fun pr => pr.profile_id = cid && decide (r.redFlagThreshold < pr.red_flag_score))

/-- The pairs involving a given user (`user_pairs` in `recommend_for_user`). -/
def userPairsOf (r : Recommender) (uid : String) : List PairRecord :=
  r.pairs.filter (fun p => p.profile_a_id = uid || p.profile_b_id = uid)

/-- User pairs tagged with their normalized `candidate_id`. -/
def withCandidates (r : Recommender) (uid : String) : List (PairRecord × String) :=
  (userPairsOf r uid).map (fun p => (p, candidateOf uid p))

/-- The minimum-compatibility filter step of `recommend_for_user`. -/
def compatFiltered (r : Recommender) (uid : String) (minCompatibility : ℚ) :
    List (PairRecord × String) :=
  (withCandidates r uid).filter
    (fun pc => decide (minCompatibility ≤ pc.1.compatibility_score))

/-- The red-flag filter step of `recommend_for_user`, applied only when the
filter is enabled and the `red_flag_score` column exists. -/
def redFlagFiltered (r : Recommender) (uid : String) (minCompatibility : ℚ) :
    List (PairRecord × String) :=
  if r.filterRedFlags && r.redFlagCol then
    (compatFiltered r uid minCompatibility).filter
      (fun pc => ! isRedFlaggedCandidate r pc.2)
  else compatFiltered r uid minCompatibility

/-- Surviving pairs with their strategy ranking score. -/
def rankedCandidates (r : Recommender) (uid : String) (minCompatibility : ℚ)
    (strategy : String) : List RankedPair :=
  (redFlagFiltered r uid minCompatibility).map
    (fun pc => RankedPair.mk pc.1 pc.2 (rankingScore strategy pc.1))

/-- Embeds `ConnectionRecommender.recommend_for_user`. -/
def recommendForUser (r : Recommender) (uid : String) (topN : ℕ)
    (minCompatibility : ℚ) (strategy : String) : List RecommendationRow :=
  if (userPairsOf r uid).isEmpty then []
  else ((sortByRankingDesc (rankedCandidates r uid minCompatibility strategy)).take topN).map
    (fun rp => enrichRow r rp)

/-- An output row of `get_hidden_gems`; the gem fields come from a left join
and are `none` (NaN) when the candidate profile is absent. -/
structure GemRow where
  candidate_id : String
  compatibility_score : ℚ
  gem_score : Option ℚ
  gem_type : Option String
  gem_reason : Option String
deriving DecidableEq

/-- Stable descending insertion by gem score. -/
def insertByGemScore (x : GemRow) : List GemRow → List GemRow
  | [] => [x]
  | y :: ys =>
    if y.gem_score.getD 0 < x.gem_score.getD 0 then x :: y :: ys
    else y :: insertByGemScore x ys

/-- Stable sort, descending by gem score. -/
def sortByGemScoreDesc : List GemRow → List GemRow
  | [] => []
  | x :: xs => insertByGemScore x (sortByGemScoreDesc xs)

/-- Embeds `ConnectionRecommender.get_hidden_gems`.  The merge on the gem
columns raises a `KeyError` when the profiles dataframe lacks them, modelled
by the `Except.error` branch; `nlargest` drops rows whose joined gem score is
NaN (`none`). -/
def getHiddenGems (r : Recommender) (uid : String) (topN : ℕ)
    (minGemScore : ℚ) : Except String (List GemRow) :=
  if (userPairsOf r uid).isEmpty then .ok []
  else if ! r.gemCol then .error "KeyError: gem_score"
  else
    let gemOk := (withCandidates r uid).filter
      (fun pc => r.profiles.any
        (fun pr => pr.profile_id = pc.2 && decide (minGemScore ≤ pr.gem_score)))
    let merged := gemOk.map (fun pc =>
      let found := r.profiles.find? (fun pr => pr.profile_id = pc.2)
      GemRow.mk pc.2 pc.1.compatibility_score
        (found.map (fun pr => pr.gem_score))
        (found.map (fun pr => pr.gem_type))
        (found.map (fun pr => pr.gem_reason)))
    .ok ((sortByGemScoreDesc (merged.filter (fun g => g.gem_score.isSome))).take topN)

/-- The structured result of `evaluate_connection` in the non-error case. -/
structure Evaluation where
  compatibility_score : ℚ
  recommendation : String
  roi_job_opportunity : ℚ
  roi_mentorship_value : ℚ
  roi_collaboration_potential : ℚ
  roi_expected_timeframe : String
  candidate_name : String
  candidate_role : String
  candidate_company : String
  candidate_seniority : String
  candidate_industry : String
  candidate_years_experience : ℤ
  has_red_flags : Bool
  red_flag_score : ℚ
  red_flag_reasons : String
  is_gem : Bool
  gem_score : ℚ
  gem_type : String
  explanation : String
deriving DecidableEq

/-- The first pair row joining the two profile ids in either orientation. -/
def findPair (r : Recommender) (uid cid : String) : Option PairRecord :=
  r.pairs.find? (fun p =>
    (p.profile_a_id = uid && p.profile_b_id = cid) ||
    (p.profile_a_id = cid && p.profile_b_id = uid))

/-- The candidate's profile row, if present in the profile lookup. -/
def findProfile (r : Recommender) (cid : String) : Option RecProfile :=
  r.profiles.find? (fun pr => pr.profile_id = cid)

/-- The evaluation dictionary built by `evaluate_connection` from a pair row
and the candidate's profile row; `candidate.get("red_flag_score", 0)` and the
gem fields fall back to their defaults when the column is absent. -/
def mkEvaluation (r : Recommender) (p : PairRecord) (c : RecProfile) : Evaluation :=
  let rf := if r.redFlagCol then c.red_flag_score else 0
  let gem := if r.gemCol then c.gem_score else 0
  { compatibility_score := p.compatibility_score
    recommendation :=
      if 70 ≤ p.compatibility_score then "CONNECT"
      else if 50 ≤ p.compatibility_score then "CONSIDER"
      else "SKIP"
    roi_job_opportunity := p.predicted_job_opportunity_score
    roi_mentorship_value := p.predicted_mentorship_value
    roi_collaboration_potential := p.predicted_collaboration_potential
    roi_expected_timeframe := p.roi_timeframe
    candidate_name := c.name
    candidate_role := c.current_role
    candidate_company := c.current_company
    candidate_seniority := c.seniority_level
    candidate_industry := c.industry
    candidate_years_experience := c.years_experience
    has_red_flags := decide (50 < rf)
    red_flag_score := rf
    red_flag_reasons := if r.redFlagCol then c.red_flag_reasons else "None"
    is_gem := decide (70 < gem)
    gem_score := gem
    gem_type := if r.gemCol then c.gem_type else "None"
    explanation := p.mutual_benefit_explanation }

/-- Embeds `ConnectionRecommender.evaluate_connection`: a structured error
value when the pair or the candidate profile is absent, the full evaluation
otherwise. -/
def evaluateConnection (r : Recommender) (uid cid : String) : Except String Evaluation :=
  match findPair r uid cid with
  | none => .error "Connection pair not found"
  | some p =>
    match findProfile r cid with
    | none => .error "Candidate profile not found"
    | some c => .ok (mkEvaluation r p c)

/-! ## Basic lemmas -/

/-- Rounding half-to-even of a non-negative rational is non-negative. -/
lemma roundHalfEven_nonneg {x : ℚ} (h : 0 ≤ x) : 0 ≤ roundHalfEven x := by
  unfold roundHalfEven
  have hn : (0 : ℤ) ≤ ⌊x⌋ := Int.floor_nonneg.mpr h
  dsimp only
  split_ifs <;> omega

/-- Python 2-decimal rounding of a non-negative rational is non-negative. -/
lemma pyRound2_nonneg {x : ℚ} (h : 0 ≤ x) : 0 ≤ pyRound2 x := by
  unfold pyRound2
  have : (0 : ℤ) ≤ roundHalfEven (x * 100) := roundHalfEven_nonneg (by positivity)
  have h100 : (0 : ℚ) ≤ (roundHalfEven (x * 100) : ℚ) := by exact_mod_cast this
  positivity

/-! ## C2: red-flag penalty multiplier (`model-api/app.py`) -/

/-- C2 (counterexample): the claim asserts the refined final score is clamped
to [0,100], but `predict_compatibility` applies no clamp: a predicted score
of 150 against a target with `red_flag_score = 80` is refined to
0.80 × 150 = 120, which exceeds 100 (and the API still returns 120 after
1-decimal rounding). -/
theorem c2_no_clamp_counterexample :
    applyRedFlagPenalty 150 80 = 0.80 * 150 ∧
    ¬ applyRedFlagPenalty 150 80 ≤ 100 ∧
    predictResponseScore 150 80 = 120 := by
  refine ⟨by norm_num [applyRedFlagPenalty, redFlagMultiplier], ?_, ?_⟩
  · norm_num [applyRedFlagPenalty, redFlagMultiplier]
  · norm_num [predictResponseScore, applyRedFlagPenalty, redFlagMultiplier,
      pyRound1, roundHalfEven]

/-- C2 (amended): the refined final score equals S×0.80 for target
`red_flag_score` > 75, S×0.90 for >50 (and ≤75), S×0.95 for >25 (and ≤50)
and S otherwise — in particular `red_flag_score = 80` yields 0.80×S — but no
clamp is applied; the result lies in [0,100] only because a predicted score
already in [0,100] stays there under a multiplier in (0,1]. -/
theorem c2_red_flag_penalty (s rf : ℚ) :
    (75 < rf → applyRedFlagPenalty s rf = 0.80 * s) ∧
    (50 < rf → rf ≤ 75 → applyRedFlagPenalty s rf = 0.90 * s) ∧
    (25 < rf → rf ≤ 50 → applyRedFlagPenalty s rf = 0.95 * s) ∧
    (rf ≤ 25 → applyRedFlagPenalty s rf = s) ∧
    (0 ≤ s → s ≤ 100 → 0 ≤ applyRedFlagPenalty s rf ∧ applyRedFlagPenalty s rf ≤ 100) ∧
    applyRedFlagPenalty s 80 = 0.80 * s := by
  unfold applyRedFlagPenalty redFlagMultiplier
  refine ⟨fun h => ?_, fun h h' => ?_, fun h h' => ?_, fun h => ?_, fun h0 h1 => ?_, ?_⟩
  · rw [if_pos h]; ring
  · rw [if_neg (by linarith), if_pos h]; ring
  · rw [if_neg (by linarith), if_neg (by linarith), if_pos h]; ring
  · rw [if_neg (by linarith), if_neg (by linarith), if_neg (by linarith)]; ring
  · split_ifs <;> constructor <;> nlinarith
  · rw [if_pos (by norm_num : (75 : ℚ) < 80)]; ring

/-- Witness for C2 at S = 90, red_flag_score = 80. -/
theorem c2_red_flag_penalty_witness :
    (75 : ℚ) < 80 ∧ applyRedFlagPenalty 90 80 = 0.80 * 90 :=
  ⟨by norm_num, (c2_red_flag_penalty 90 80).1 (by norm_num)⟩

/-! ## C3: missing-field defaults (`compatibility_features.py`) -/

/-- C3 (counterexample): the claim says a missing `seniority_level` resolves
to `"entry"` and contributes a seniority bonus of 0 to network value; the
code defaults it to `"mid"` (bonus 10), so two all-absent profiles get
network value 10, not 0. -/
theorem c3_seniority_default_counterexample :
    (calculateFeatures defaultConfig emptyProfile emptyProfile).network_value_a_to_b = 10 ∧
    (calculateFeatures defaultConfig emptyProfile emptyProfile).network_value_a_to_b ≠ 0 := by
  constructor <;>
  · simp [calculateFeatures, networkValue, industryMatch, connectionsOf,
      industryOf, seniorityOf, seniorityBonus, emptyProfile, strLower]
    norm_num

/-- C3 (amended): `calculate_features` is total on profiles with absent
optional fields, and every absent field resolves to its call-site default —
0 for counts, the empty list for collections, `""` for free-text fields —
but `seniority_level` defaults to `"mid"` (network-value seniority bonus 10),
not `"entry"`; the all-absent profile pair evaluates to the fully-defaulted
feature vector. -/
theorem c3_missing_field_defaults :
    skillsOf emptyProfile = [] ∧ needsOf emptyProfile = [] ∧
    canOfferOf emptyProfile = [] ∧ connectionsOf emptyProfile = 0 ∧
    yearsOf emptyProfile = 0 ∧ industryOf emptyProfile = "" ∧
    locationOf emptyProfile = "" ∧ aboutOf emptyProfile = "" ∧
    experienceOf emptyProfile = [] ∧ seniorityOf emptyProfile = "mid" ∧
    seniorityBonus (seniorityOf emptyProfile) = 10 ∧
    calculateFeatures defaultConfig emptyProfile emptyProfile =
      { skill_match_score := 0
        skill_complementarity_score := 0
        network_value_a_to_b := 10
        network_value_b_to_a := 10
        career_alignment_score := 80
        experience_gap := 0
        industry_match := 0
        geographic_score := 50
        seniority_match := 85
        compatibility_score := 24
        predicted_job_opportunity_score := 3
        predicted_mentorship_value := 12
        predicted_collaboration_potential := 30
        roi_timeframe := "long-term" } := by
  refine ⟨rfl, rfl, rfl, rfl, rfl, rfl, rfl, rfl, rfl, rfl, by decide, ?_⟩
  simp [calculateFeatures, skillMatchScore, skillComplementarityScore, networkValue,
    industryMatch, careerAlignmentScore, experienceGap, geographicScore, seniorityMatch,
    seniorityIndex, overallCompatibility, predictJobOpportunity, predictMentorshipValue,
    predictCollaboration, estimateRoiTimeframe, pyRound2, roundHalfEven, safeDivide,
    calcSimilarity, skillWeight, networkWeight, careerWeight, geographicWeight,
    defaultConfig, emptyProfile, skillsOf, needsOf, canOfferOf, connectionsOf, seniorityOf,
    yearsOf, industryOf, locationOf, currentRoleOf, aboutOf, experienceOf, seniorityBonus,
    strLower, FeatureVector.mk.injEq]
  norm_num

/-! ## C5: skill rarity monotonicity and banding (`hidden_gems_detector.py`) -/

/-- Every rarity score is at least the floor of 10. -/
lemma skillRarity_floor (f : ℚ) : 10 ≤ skillRarity f := by
  unfold skillRarity
  split_ifs <;> first | linarith | exact le_max_left _ _

/-- A frequency below 5% gives rarity at least 90. -/
lemma skillRarity_band90 (f : ℚ) (h : f < 0.05) : 90 ≤ skillRarity f := by
  unfold skillRarity
  rw [if_pos h]; linarith

/-- A frequency below 15% gives rarity at least 70. -/
lemma skillRarity_band70 (f : ℚ) (h : f < 0.15) : 70 ≤ skillRarity f := by
  unfold skillRarity
  split_ifs <;> linarith

/-- A frequency below 30% gives rarity at least 40. -/
lemma skillRarity_band40 (f : ℚ) (h : f < 0.30) : 40 ≤ skillRarity f := by
  unfold skillRarity
  split_ifs <;> linarith

/-- A frequency of at least 30% gives rarity at most 40. -/
lemma skillRarity_tail40 (f : ℚ) (h : 0.30 ≤ f) : skillRarity f ≤ 40 := by
  unfold skillRarity
  split_ifs <;> first | linarith | exact max_le (by norm_num) (by linarith)

/-- Rarity is antitone in frequency. -/
lemma skillRarity_anti (f1 f2 : ℚ) (h : f1 ≤ f2) : skillRarity f2 ≤ skillRarity f1 := by
  unfold skillRarity
  split_ifs <;>
    first
      | linarith
      | exact max_le_max (le_refl 10) (by linarith)
      | (have h40 : max (10 : ℚ) (40 - f2 * 50) ≤ 40 := max_le (by norm_num) (by linarith)
         linarith)

/-- The rarity properties claimed for two observed skills: monotonicity with
respect to corpus frequency, the frequency banding, and the floor of 10. -/
def RarityPropertiesOK (corpus : List (List String)) (s1 s2 : String) : Prop :=
  (skillFrequency corpus s1 < skillFrequency corpus s2 →
    corpusRarity corpus s2 ≤ corpusRarity corpus s1) ∧
  (skillFrequency corpus s1 < 0.05 → 90 ≤ corpusRarity corpus s1) ∧
  (skillFrequency corpus s1 < 0.15 → 70 ≤ corpusRarity corpus s1) ∧
  (skillFrequency corpus s1 < 0.30 → 40 ≤ corpusRarity corpus s1) ∧
  (0.30 ≤ skillFrequency corpus s1 → corpusRarity corpus s1 ≤ 40) ∧
  10 ≤ corpusRarity corpus s1

/-- C5: for any corpus and any two observed skills, the rarer skill gets an
equal-or-higher rarity score, and the frequency banding of
`_calculate_skill_rarity` holds (below 5% → ≥90, below 15% → ≥70, below
30% → ≥40, otherwise ≤40, with a floor of 10). -/
theorem c5_rarity_monotone_banded (corpus : List (List String)) (s1 s2 : String)
    (_h1 : 0 < corpusSkillCount corpus s1) (_h2 : 0 < corpusSkillCount corpus s2) :
    RarityPropertiesOK corpus s1 s2 := by
  unfold RarityPropertiesOK corpusRarity
  exact ⟨fun h => skillRarity_anti _ _ (le_of_lt h), skillRarity_band90 _,
    skillRarity_band70 _, skillRarity_band40 _, skillRarity_tail40 _, skillRarity_floor _⟩

/-- A 3-profile corpus where "python" is observed once and "java" twice. -/
def wCorpus : List (List String) := [["python"], ["java"], ["java"]]

/-- Witness for C5 on a concrete corpus. -/
theorem c5_rarity_monotone_banded_witness :
    0 < corpusSkillCount wCorpus "python" ∧ 0 < corpusSkillCount wCorpus "java" ∧
    RarityPropertiesOK wCorpus "python" "java" :=
  ⟨by decide, by decide,
    c5_rarity_monotone_banded wCorpus "python" "java" (by decide) (by decide)⟩

/-! ## C7: mentorship ranking strategy (`connection_recommender.py`) -/

/-- A pair with mentorship value 90 and compatibility 50. -/
def wPairMentor : PairRecord :=
  { profile_a_id := "u", profile_b_id := "c1", compatibility_score := 50
    predicted_job_opportunity_score := 0, predicted_mentorship_value := 90
    predicted_collaboration_potential := 0, roi_timeframe := "months"
    mutual_benefit_explanation := "" }

/-- A pair with mentorship value 40 and compatibility 80. -/
def wPairPeer : PairRecord :=
  { profile_a_id := "u", profile_b_id := "c2", compatibility_score := 80
    predicted_job_opportunity_score := 0, predicted_mentorship_value := 40
    predicted_collaboration_potential := 0, roi_timeframe := "months"
    mutual_benefit_explanation := "" }

/-- A recommender over the two scenario pairs. -/
def wRecMentor : Recommender := { pairs := [wPairPeer, wPairMentor], profiles := [] }

/-- C7: under the "mentorship" strategy the ranking score is
0.6 × predicted_mentorship_value + 0.4 × compatibility_score; consequently a
pair with mentorship value 90 / compatibility 50 (score 74) is ranked above a
pair with mentorship value 40 / compatibility 80 (score 56). -/
theorem c7_mentorship_strategy :
    (∀ p : PairRecord, rankingScore "mentorship" p =
      0.6 * p.predicted_mentorship_value + 0.4 * p.compatibility_score) ∧
    rankingScore "mentorship" wPairMentor = 74 ∧
    rankingScore "mentorship" wPairPeer = 56 ∧
    (recommendForUser wRecMentor "u" 10 0 "mentorship").map
      (fun row => row.candidate_id) = ["c1", "c2"] := by
  have key : ∀ p : PairRecord, rankingScore "mentorship" p =
      p.predicted_mentorship_value * 0.6 + p.compatibility_score * 0.4 := fun p => rfl
  refine ⟨fun p => by rw [key p]; ring, ?_, ?_, ?_⟩
  · rw [key wPairMentor]; norm_num [wPairMentor]
  · rw [key wPairPeer]; norm_num [wPairPeer]
  · simp [recommendForUser, userPairsOf, withCandidates, compatFiltered, redFlagFiltered,
      rankedCandidates, sortByRankingDesc, insertByRanking, enrichRow, candidateOf,
      isRedFlaggedCandidate, rankingScore, wRecMentor, wPairMentor, wPairPeer]
    norm_num

/-! ## C8: ghost-profile detection (`red_flags_detector.py`) -/

/-- The Scenario-4 profile: empty about text, no skills, no experience. -/
def ghostExampleProfile : Profile :=
  { about := some "", skills := some [], experience := some [] }

/-- C8: `analyze_profile` flags a ghost profile exactly when at least 3 of
the 4 ghost signals (few skills, vague short title, short about, few
experience entries) hold; in particular the profile with empty about, skills
and experience is flagged. -/
theorem c8_ghost_profile :
    (∀ p : Profile, isGhostProfile p = true ↔
      ((ghostSignalFewSkills p = true ∧ ghostSignalVagueTitle p = true ∧
          ghostSignalShortAbout p = true) ∨
       (ghostSignalFewSkills p = true ∧ ghostSignalVagueTitle p = true ∧
          ghostSignalFewExperience p = true) ∨
       (ghostSignalFewSkills p = true ∧ ghostSignalShortAbout p = true ∧
          ghostSignalFewExperience p = true) ∨
       (ghostSignalVagueTitle p = true ∧ ghostSignalShortAbout p = true ∧
          ghostSignalFewExperience p = true))) ∧
    isGhostProfile ghostExampleProfile = true := by
  constructor
  · intro p
    cases h1 : ghostSignalFewSkills p <;> cases h2 : ghostSignalVagueTitle p <;>
      cases h3 : ghostSignalShortAbout p <;> cases h4 : ghostSignalFewExperience p <;>
      simp [isGhostProfile, ghostSignalCount, h1, h2, h3, h4]
  · decide

/-! ## C4: default-weight aggregation (`compatibility_features.py`) -/

/-- C4: with the default weight configuration, the aggregate compatibility
score is 0.40 × the mean of the two skill sub-scores + 0.30 × the mean of the
two directional network values + 0.20 × career alignment + 0.10 × geography,
rounded to two decimals and capped at 100. -/
theorem c4_default_weight_aggregation (a b : Profile) :
    (calculateFeatures defaultConfig a b).compatibility_score =
      min (pyRound2 (0.40 * (((calculateFeatures defaultConfig a b).skill_match_score +
            (calculateFeatures defaultConfig a b).skill_complementarity_score) / 2) +
          0.30 * (((calculateFeatures defaultConfig a b).network_value_a_to_b +
            (calculateFeatures defaultConfig a b).network_value_b_to_a) / 2) +
          0.20 * (calculateFeatures defaultConfig a b).career_alignment_score +
          0.10 * (calculateFeatures defaultConfig a b).geographic_score)) 100 := by
  have harg : (skillMatchScore a b + skillComplementarityScore a b) / 2 *
        skillWeight defaultConfig +
      (networkValue a b + networkValue b a) / 2 * networkWeight defaultConfig +
      careerAlignmentScore a b * careerWeight defaultConfig +
      geographicScore a b * geographicWeight defaultConfig =
      0.40 * ((skillMatchScore a b + skillComplementarityScore a b) / 2) +
      0.30 * ((networkValue a b + networkValue b a) / 2) +
      0.20 * careerAlignmentScore a b + 0.10 * geographicScore a b := by
    simp only [skillWeight, networkWeight, careerWeight, geographicWeight, defaultConfig,
      Option.getD_none]
    ring
  show overallCompatibility defaultConfig (skillMatchScore a b)
      (skillComplementarityScore a b) (networkValue a b) (networkValue b a)
      (careerAlignmentScore a b) (geographicScore a b) =
    min (pyRound2 (0.40 * ((skillMatchScore a b + skillComplementarityScore a b) / 2) +
      0.30 * ((networkValue a b + networkValue b a) / 2) +
      0.20 * careerAlignmentScore a b + 0.10 * geographicScore a b)) 100
  unfold overallCompatibility
  dsimp only
  rw [harg]

/-! ## C9: `evaluate_connection` error handling (`connection_recommender.py`) -/

/-- C9: `evaluate_connection` returns an explicit structured error when the
pair record or the candidate profile is absent, and the full structured
evaluation built from the pair and candidate rows when both exist. -/
theorem c9_evaluate_connection (r : Recommender) (uid cid : String) :
    (findPair r uid cid = none →
      evaluateConnection r uid cid = .error "Connection pair not found") ∧
    (∀ p : PairRecord, findPair r uid cid = some p → findProfile r cid = none →
      evaluateConnection r uid cid = .error "Candidate profile not found") ∧
    (∀ (p : PairRecord) (c : RecProfile), findPair r uid cid = some p →
      findProfile r cid = some c →
      evaluateConnection r uid cid = .ok (mkEvaluation r p c)) := by
  refine ⟨fun h => ?_, fun p hp hc => ?_, fun p c hp hc => ?_⟩
  · simp [evaluateConnection, h]
  · simp [evaluateConnection, hp, hc]
  · simp [evaluateConnection, hp, hc]

/-- A single pair row between users "u" and "c". -/
def wPairEval : PairRecord :=
  { profile_a_id := "u", profile_b_id := "c", compatibility_score := 80
    predicted_job_opportunity_score := 1, predicted_mentorship_value := 2
    predicted_collaboration_potential := 3, roi_timeframe := "weeks"
    mutual_benefit_explanation := "x" }

/-- A pair dataset containing the pair ("u", "c") but no profile rows. -/
def wRecEval : Recommender := { pairs := [wPairEval], profiles := [] }

/-- Witness for C9: the pair exists but the candidate profile is absent, so
the structured not-found error for the candidate is returned. -/
theorem c9_evaluate_connection_witness :
    findProfile wRecEval "c" = none ∧
    evaluateConnection wRecEval "u" "c" = .error "Candidate profile not found" := by
  refine ⟨rfl, ?_⟩
  exact (c9_evaluate_connection wRecEval "u" "c").2.1 wPairEval (by decide) rfl

/-! ## C10: unknown user yields empty results (`connection_recommender.py`) -/

/-- C10: for a user id that appears in no pair record, both
`recommend_for_user` and `get_hidden_gems` return an empty result (no error),
for every choice of top-n, thresholds and strategy. -/
theorem c10_unknown_user_empty (r : Recommender) (uid strat : String) (topN : ℕ)
    (minC minGem : ℚ)
    (h : ∀ p ∈ r.pairs, p.profile_a_id ≠ uid ∧ p.profile_b_id ≠ uid) :
    recommendForUser r uid topN minC strat = [] ∧
    getHiddenGems r uid topN minGem = .ok [] := by
  have hup : userPairsOf r uid = [] := by
    unfold userPairsOf
    rw [List.filter_eq_nil_iff]
    intro p hp
    simp [(h p hp).1, (h p hp).2]
  constructor
  · unfold recommendForUser
    rw [hup]
    simp
  · unfold getHiddenGems
    rw [hup]
    simp

/-- A pair dataset mentioning only the users "a" and "b". -/
def wRecUnknown : Recommender :=
  { pairs := [{ profile_a_id := "a", profile_b_id := "b", compatibility_score := 90
                predicted_job_opportunity_score := 0, predicted_mentorship_value := 0
                predicted_collaboration_potential := 0, roi_timeframe := "weeks"
                mutual_benefit_explanation := "" }]
    profiles := [] }

/-- Witness for C10 at the unknown user id "zz". -/
theorem c10_unknown_user_empty_witness :
    (∀ p ∈ wRecUnknown.pairs, p.profile_a_id ≠ "zz" ∧ p.profile_b_id ≠ "zz") ∧
    recommendForUser wRecUnknown "zz" 5 40 "balanced" = [] ∧
    getHiddenGems wRecUnknown "zz" 5 60 = .ok [] := by
  have h : ∀ p ∈ wRecUnknown.pairs, p.profile_a_id ≠ "zz" ∧ p.profile_b_id ≠ "zz" := by
    decide
  exact ⟨h, (c10_unknown_user_empty wRecUnknown "zz" "balanced" 5 40 60 h).1,
    (c10_unknown_user_empty wRecUnknown "zz" "balanced" 5 40 60 h).2⟩

/-! ## C1: sub-score ranges (`compatibility_features.py`) -/

/-- Guarded division of non-negative values is non-negative. -/
lemma safeDivide_nonneg {num den dflt : ℚ} (h1 : 0 ≤ num) (h2 : 0 ≤ den)
    (h3 : 0 ≤ dflt) : 0 ≤ safeDivide num den dflt := by
  unfold safeDivide
  split_ifs
  · exact h3
  · exact div_nonneg h1 h2

/-- Guarded division is at most 100 when the numerator is at most 100 × the
denominator. -/
lemma safeDivide_le_100 {num den dflt : ℚ} (h1 : num ≤ 100 * den) (h2 : 0 ≤ den)
    (h3 : dflt ≤ 100) : safeDivide num den dflt ≤ 100 := by
  unfold safeDivide
  split_ifs with h
  · exact h3
  · have hpos : 0 < den := lt_of_le_of_ne h2 (Ne.symm h)
    rw [div_le_iff₀ hpos]
    linarith

/-- The skill-match Jaccard score lies in [0,100]. -/
lemma skillMatchScore_bounds (a b : Profile) :
    0 ≤ skillMatchScore a b ∧ skillMatchScore a b ≤ 100 := by
  unfold skillMatchScore
  dsimp only
  split_ifs with h
  · norm_num
  · constructor
    · exact safeDivide_nonneg (by positivity) (by positivity) le_rfl
    · apply safeDivide_le_100 _ (by positivity) (by norm_num)
      have hcard : ((skillsOf a).toFinset ∩ (skillsOf b).toFinset).card ≤
          ((skillsOf a).toFinset ∪ (skillsOf b).toFinset).card :=
        Finset.card_le_card Finset.inter_subset_union
      have hq : (((skillsOf a).toFinset ∩ (skillsOf b).toFinset).card : ℚ) ≤
          (((skillsOf a).toFinset ∪ (skillsOf b).toFinset).card : ℚ) := by
        exact_mod_cast hcard
      linarith

/-- The skill-complementarity score lies in [0,100]. -/
lemma skillComplementarityScore_bounds (a b : Profile) :
    0 ≤ skillComplementarityScore a b ∧ skillComplementarityScore a b ≤ 100 := by
  unfold skillComplementarityScore
  dsimp only
  constructor
  · exact safeDivide_nonneg (by positivity) (by positivity) le_rfl
  · apply safeDivide_le_100 _ (by positivity) (by norm_num)
    have h1 : (if (needsOf a).toFinset ≠ ∅ then
        ((needsOf a).toFinset ∩ (canOfferOf b).toFinset).card else 0) ≤
        (needsOf a).toFinset.card := by
      split_ifs
      · exact Finset.card_le_card Finset.inter_subset_left
      · exact Nat.zero_le _
    have h2 : (if (needsOf b).toFinset ≠ ∅ then
        ((needsOf b).toFinset ∩ (canOfferOf a).toFinset).card else 0) ≤
        (needsOf b).toFinset.card := by
      split_ifs
      · exact Finset.card_le_card Finset.inter_subset_left
      · exact Nat.zero_le _
    have hq : (((if (needsOf a).toFinset ≠ ∅ then
        ((needsOf a).toFinset ∩ (canOfferOf b).toFinset).card else 0) +
        (if (needsOf b).toFinset ≠ ∅ then
        ((needsOf b).toFinset ∩ (canOfferOf a).toFinset).card else 0) : ℕ) : ℚ) ≤
        (((needsOf a).toFinset.card + (needsOf b).toFinset.card : ℕ) : ℚ) := by
      exact_mod_cast Nat.add_le_add h1 h2
    linarith

/-- Word-set Jaccard similarity lies in [0,1]. -/
lemma calcSimilarity_bounds (t1 t2 : String) :
    0 ≤ calcSimilarity t1 t2 ∧ calcSimilarity t1 t2 ≤ 1 := by
  unfold calcSimilarity
  dsimp only
  split_ifs with h h2
  · norm_num
  · norm_num
  · constructor
    · positivity
    · have hpos : 0 < (((splitWords (strLower t1)).toFinset ∪
          (splitWords (strLower t2)).toFinset).card : ℚ) := by
        exact_mod_cast Nat.pos_of_ne_zero h2
      rw [div_le_one hpos]
      exact_mod_cast Finset.card_le_card Finset.inter_subset_union

/-- The industry-match score lies in [0,100]. -/
lemma industryMatch_bounds (a b : Profile) :
    0 ≤ industryMatch a b ∧ industryMatch a b ≤ 100 := by
  unfold industryMatch
  dsimp only
  split_ifs
  · norm_num
  · norm_num
  · have h := calcSimilarity_bounds (industryOf a) (industryOf b)
    constructor <;> nlinarith [h.1, h.2]

/-- The seniority bonus table is non-negative. -/
lemma seniorityBonus_nonneg (s : String) : 0 ≤ seniorityBonus s := by
  unfold seniorityBonus
  split_ifs <;> norm_num

/-- Network value lies in [0,100] for a non-negative connection count. -/
lemma networkValue_bounds (pfrom pto : Profile) (h : 0 ≤ connectionsOf pfrom) :
    0 ≤ networkValue pfrom pto ∧ networkValue pfrom pto ≤ 100 := by
  unfold networkValue
  dsimp only
  constructor
  · apply le_min _ (by norm_num)
    have hc : (0 : ℚ) ≤ min (connectionsOf pfrom / 1000 * 50) 50 :=
      le_min (by positivity) (by norm_num)
    have hi : (0 : ℚ) ≤ industryMatch pfrom pto * 0.3 :=
      mul_nonneg (industryMatch_bounds pfrom pto).1 (by norm_num)
    have hs := seniorityBonus_nonneg (seniorityOf pfrom)
    linarith
  · exact min_le_right _ _

/-- Career alignment is one of the band values, hence in [0,100]. -/
lemma careerAlignmentScore_bounds (a b : Profile) :
    0 ≤ careerAlignmentScore a b ∧ careerAlignmentScore a b ≤ 100 := by
  unfold careerAlignmentScore
  dsimp only
  split_ifs <;> norm_num

/-- The geographic score is one of the band values, hence in [0,100]. -/
lemma geographicScore_bounds (a b : Profile) :
    0 ≤ geographicScore a b ∧ geographicScore a b ≤ 100 := by
  unfold geographicScore
  dsimp only
  split_ifs <;> norm_num

/-- The seniority-match score is one of the band values, hence in [0,100]. -/
lemma seniorityMatch_bounds (a b : Profile) :
    0 ≤ seniorityMatch a b ∧ seniorityMatch a b ≤ 100 := by
  unfold seniorityMatch
  cases seniorityIndex (seniorityOf a) <;> cases seniorityIndex (seniorityOf b) <;>
    dsimp only <;> (try split_ifs) <;> norm_num

/-- The default-weight aggregate of non-negative sub-scores lies in [0,100]. -/
lemma overallCompatibility_default_bounds {sm sc nva nvb ca geo : ℚ}
    (hsm : 0 ≤ sm) (hsc : 0 ≤ sc) (hnva : 0 ≤ nva) (hnvb : 0 ≤ nvb)
    (hca : 0 ≤ ca) (hgeo : 0 ≤ geo) :
    0 ≤ overallCompatibility defaultConfig sm sc nva nvb ca geo ∧
    overallCompatibility defaultConfig sm sc nva nvb ca geo ≤ 100 := by
  unfold overallCompatibility
  dsimp only
  constructor
  · apply le_min _ (by norm_num)
    apply pyRound2_nonneg
    have h1 : skillWeight defaultConfig = 0.40 := rfl
    have h2 : networkWeight defaultConfig = 0.30 := rfl
    have h3 : careerWeight defaultConfig = 0.20 := rfl
    have h4 : geographicWeight defaultConfig = 0.10 := rfl
    rw [h1, h2, h3, h4]
    nlinarith
  · exact min_le_right _ _

/-- The range invariant claimed for a feature vector: every sub-score except
the raw experience gap lies in [0,100], the aggregate compatibility score
lies in [0,100], and the experience gap is a non-negative integer. -/
def subScoresInRange (f : FeatureVector) : Prop :=
  0 ≤ f.skill_match_score ∧ f.skill_match_score ≤ 100 ∧
  0 ≤ f.skill_complementarity_score ∧ f.skill_complementarity_score ≤ 100 ∧
  0 ≤ f.network_value_a_to_b ∧ f.network_value_a_to_b ≤ 100 ∧
  0 ≤ f.network_value_b_to_a ∧ f.network_value_b_to_a ≤ 100 ∧
  0 ≤ f.career_alignment_score ∧ f.career_alignment_score ≤ 100 ∧
  0 ≤ f.industry_match ∧ f.industry_match ≤ 100 ∧
  0 ≤ f.geographic_score ∧ f.geographic_score ≤ 100 ∧
  0 ≤ f.seniority_match ∧ f.seniority_match ≤ 100 ∧
  0 ≤ f.compatibility_score ∧ f.compatibility_score ≤ 100 ∧
  0 ≤ f.experience_gap

/-- C1 (counterexample): `experience_gap` is a raw absolute year count and is
NOT bounded by 100 — two valid profiles with 2 and 120 years of experience
give an experience gap of 118. -/
theorem c1_experience_gap_counterexample :
    100 < (calculateFeatures defaultConfig
      { years_experience := some 2, connections := some 500 }
      { years_experience := some 120, connections := some 500 }).experience_gap := by
  decide

/-- C1 (amended): for valid profiles (non-negative connection counts), every
sub-score of `calculate_features` except the raw `experience_gap` lies in
[0,100] and the aggregate `compatibility_score` lies in [0,100];
`experience_gap` itself is only guaranteed non-negative. -/
theorem c1_subscore_ranges (a b : Profile)
    (ha : 0 ≤ connectionsOf a) (hb : 0 ≤ connectionsOf b) :
    subScoresInRange (calculateFeatures defaultConfig a b) := by
  have hsm := skillMatchScore_bounds a b
  have hsc := skillComplementarityScore_bounds a b
  have hnva := networkValue_bounds a b ha
  have hnvb := networkValue_bounds b a hb
  have hca := careerAlignmentScore_bounds a b
  have him := industryMatch_bounds a b
  have hgeo := geographicScore_bounds a b
  have hsen := seniorityMatch_bounds a b
  have hcompat := overallCompatibility_default_bounds hsm.1 hsc.1 hnva.1 hnvb.1
    hca.1 hgeo.1
  exact ⟨hsm.1, hsm.2, hsc.1, hsc.2, hnva.1, hnva.2, hnvb.1, hnvb.2, hca.1, hca.2,
    him.1, him.2, hgeo.1, hgeo.2, hsen.1, hsen.2, hcompat.1, hcompat.2, abs_nonneg _⟩

/-- A fully-populated valid profile (entry level, Austin). -/
def wProfileA : Profile :=
  { skills := some ["python", "sql"], needs := some ["mentorship"]
    can_offer := some ["energy"], connections := some 500
    seniority_level := some "entry", years_experience := some 2
    industry := some "Technology", location := some "Austin, TX" }

/-- A fully-populated valid profile (senior level, Dallas). -/
def wProfileB : Profile :=
  { skills := some ["python", "go"], needs := some ["energy"]
    can_offer := some ["mentorship"], connections := some 2000
    seniority_level := some "senior", years_experience := some 8
    industry := some "Technology", location := some "Dallas, TX" }

/-- Witness for C1 on a concrete valid profile pair. -/
theorem c1_subscore_ranges_witness :
    0 ≤ connectionsOf wProfileA ∧ 0 ≤ connectionsOf wProfileB ∧
    subScoresInRange (calculateFeatures defaultConfig wProfileA wProfileB) :=
  ⟨by norm_num [connectionsOf, wProfileA], by norm_num [connectionsOf, wProfileB],
    c1_subscore_ranges wProfileA wProfileB
      (by norm_num [connectionsOf, wProfileA]) (by norm_num [connectionsOf, wProfileB])⟩

/-! ## C6: recommender filtering and ordering (`connection_recommender.py`) -/

/-- Membership after insertion: the element is the inserted one or was
already present. -/
lemma mem_insertByRanking {x z : RankedPair} :
    ∀ {l : List RankedPair}, z ∈ insertByRanking x l → z = x ∨ z ∈ l := by
  intro l
  induction l with
  | nil =>
    intro h
    simp [insertByRanking] at h
    exact Or.inl h
  | cons y ys ih =>
    intro h
    unfold insertByRanking at h
    split_ifs at h with hc
    · rcases List.mem_cons.mp h with h1 | h2
      · exact Or.inl h1
      · exact Or.inr h2
    · rcases List.mem_cons.mp h with h1 | h2
      · exact Or.inr (h1 ▸ List.mem_cons_self y ys)
      · rcases ih h2 with h3 | h4
        · exact Or.inl h3
        · exact Or.inr (List.mem_cons_of_mem _ h4)

/-- Insertion preserves the descending-by-ranking-score invariant. -/
lemma pairwise_insertByRanking {x : RankedPair} :
    ∀ {l : List RankedPair},
      l.Pairwise (fun u v => v.ranking_score ≤ u.ranking_score) →
      (insertByRanking x l).Pairwise (fun u v => v.ranking_score ≤ u.ranking_score) := by
  intro l
  induction l with
  | nil =>
    intro _
    simp [insertByRanking]
  | cons y ys ih =>
    intro h
    rcases List.pairwise_cons.mp h with ⟨hy, hys⟩
    unfold insertByRanking
    split_ifs with hc
    · refine List.Pairwise.cons ?_ h
      intro z hz
      rcases List.mem_cons.mp hz with rfl | hz2
      · exact le_of_lt hc
      · exact le_trans (hy z hz2) (le_of_lt hc)
    · refine List.Pairwise.cons ?_ (ih hys)
      intro z hz
      rcases mem_insertByRanking hz with rfl | hz2
      · exact not_lt.mp hc
      · exact hy z hz2

/-- The insertion sort is descending by ranking score. -/
lemma pairwise_sortByRankingDesc (l : List RankedPair) :
    (sortByRankingDesc l).Pairwise (fun u v => v.ranking_score ≤ u.ranking_score) := by
  induction l with
  | nil => simp [sortByRankingDesc]
  | cons x xs ih => exact pairwise_insertByRanking ih

/-- The sort produces no new elements. -/
lemma mem_sortByRankingDesc {z : RankedPair} :
    ∀ {l : List RankedPair}, z ∈ sortByRankingDesc l → z ∈ l := by
  intro l
  induction l with
  | nil => simp [sortByRankingDesc]
  | cons x xs ih =>
    intro h
    unfold sortByRankingDesc at h
    rcases mem_insertByRanking h with rfl | h2
    · exact List.mem_cons_self ..
    · exact List.mem_cons_of_mem _ (ih h2)

/-- The output contract claimed for `recommend_for_user`: sorted descending
by ranking score, at most top-n rows, every row at or above the minimum
compatibility, and no row whose candidate has a red-flag score above the
threshold. -/
def RecommendationOutputOK (r : Recommender) (minCompatibility : ℚ) (topN : ℕ)
    (rows : List RecommendationRow) : Prop :=
  rows.Pairwise (fun x y => y.ranking_score ≤ x.ranking_score) ∧
  rows.length ≤ topN ∧
  ∀ row ∈ rows, minCompatibility ≤ row.compatibility_score ∧
    ∀ pr ∈ r.profiles, pr.profile_id = row.candidate_id →
      pr.red_flag_score ≤ r.redFlagThreshold

/-- C6: with red-flag filtering enabled and the `red_flag_score` column
present, `recommend_for_user` returns a list sorted descending by
`ranking_score`, of length at most top-n, containing no pair below the
minimum compatibility and no candidate whose red-flag score exceeds the
configured threshold. -/
theorem c6_recommend_output (r : Recommender) (uid : String) (topN : ℕ)
    (minC : ℚ) (strat : String)
    (hf : r.filterRedFlags = true) (hcol : r.redFlagCol = true) :
    RecommendationOutputOK r minC topN (recommendForUser r uid topN minC strat) := by
  unfold RecommendationOutputOK recommendForUser
  split_ifs with hemp
  · simp
  · refine ⟨?_, ?_, ?_⟩
    · rw [List.pairwise_map]
      have hp := pairwise_sortByRankingDesc (rankedCandidates r uid minC strat)
      have ht := List.Pairwise.sublist (List.take_sublist topN _) hp
      exact ht.imp (fun hle => hle)
    · rw [List.length_map, List.length_take]
      exact min_le_left _ _
    · intro row hrow
      rcases List.mem_map.mp hrow with ⟨rp, hrpTake, rfl⟩
      have hrpRanked : rp ∈ rankedCandidates r uid minC strat :=
        mem_sortByRankingDesc (List.mem_of_mem_take hrpTake)
      unfold rankedCandidates at hrpRanked
      rcases List.mem_map.mp hrpRanked with ⟨pc, hpcRF, rfl⟩
      unfold redFlagFiltered at hpcRF
      rw [hf, hcol] at hpcRF
      simp only [Bool.and_self, if_true] at hpcRF
      rcases List.mem_filter.mp hpcRF with ⟨hpcCompat, hpcNotFlagged⟩
      rcases List.mem_filter.mp hpcCompat with ⟨_, hpcOk⟩
      refine ⟨of_decide_eq_true hpcOk, ?_⟩
      intro pr hpr hid
      have hflag : isRedFlaggedCandidate r pc.2 = false := by
        simpa using hpcNotFlagged
      unfold isRedFlaggedCandidate at hflag
      rw [List.any_eq_false] at hflag
      have hthis := hflag pr hpr
      simp only [hid] at hthis
      simp at hthis
      exact hthis rfl

/-- A candidate profile below the red-flag threshold. -/
def wProfileClean : RecProfile :=
  { profile_id := "c1", name := "A", current_role := "Engineer", current_company := "X"
    seniority_level := "mid", industry := "Technology", years_experience := 5
    red_flag_score := 10, red_flag_reasons := "No significant red flags"
    gem_score := 20, gem_type := "none", gem_reason := "" }

/-- A candidate profile above the red-flag threshold. -/
def wProfileFlagged : RecProfile :=
  { profile_id := "c3", name := "B", current_role := "Consultant", current_company := "Y"
    seniority_level := "mid", industry := "Technology", years_experience := 6
    red_flag_score := 80, red_flag_reasons := "Ghost profile"
    gem_score := 0, gem_type := "none", gem_reason := "" }

/-- A recommender with one keepable pair, one low-compatibility pair and one
red-flagged candidate. -/
def wRecC6 : Recommender :=
  { pairs :=
      [{ profile_a_id := "u", profile_b_id := "c1", compatibility_score := 80
         predicted_job_opportunity_score := 50, predicted_mentorship_value := 60
         predicted_collaboration_potential := 70, roi_timeframe := "weeks"
         mutual_benefit_explanation := "" },
       { profile_a_id := "u", profile_b_id := "c2", compatibility_score := 30
         predicted_job_opportunity_score := 10, predicted_mentorship_value := 10
         predicted_collaboration_potential := 10, roi_timeframe := "long-term"
         mutual_benefit_explanation := "" },
       { profile_a_id := "c3", profile_b_id := "u", compatibility_score := 90
         predicted_job_opportunity_score := 90, predicted_mentorship_value := 90
         predicted_collaboration_potential := 90, roi_timeframe := "weeks"
         mutual_benefit_explanation := "" }]
    profiles := [wProfileClean, wProfileFlagged] }

/-- Witness for C6 on a concrete recommender. -/
theorem c6_recommend_output_witness :
    wRecC6.filterRedFlags = true ∧ wRecC6.redFlagCol = true ∧
    RecommendationOutputOK wRecC6 40 2 (recommendForUser wRecC6 "u" 2 40 "balanced") :=
  ⟨rfl, rfl, c6_recommend_output wRecC6 "u" 2 40 "balanced" rfl rfl⟩

end LinkedInMatch
